import Mathlib

/-!
Verification development for the client lifecycle / play-state manager of
`src/src/client/state_manager/game.rs` (the `GamePlugin` of the chat-feat
client).  The Rust code is a Bevy plugin; we shallowly embed the plugin's
data model and its per-frame (per-tick) behaviour: the `OnEnter(Game)`
bootstrap `setup`, the `Update` systems together with their `run_if`
conditions, and the fail-fast panic policy.  External engine machinery
(Bevy schedules, `bevy_renet`, `renet_visualizer`) is modelled from the
specification where its code is not part of this repository.
-/

namespace ChatFeat

/-- Modelled from the spec: `ConnectionAddr` is declared in the parent
`state_manager` module (not shown in `src/`); the spec describes it as an
immutable host/port endpoint descriptor, so we model it as a string. -/
abbrev ConnectionAddr := String

/-- Modelled from the spec: the outer lifecycle state (`GameState`) is
declared in the parent `state_manager` module (not shown in `src/`); the
spec describes it as an enumeration driving whether the game world exists
at all (e.g. `Menu`, `Game`). -/
inductive GameState
  | Menu
  | Game
deriving DecidableEq, Repr

/-- The `PlayState` enumeration of `game.rs` lines 36-43: variants `Main`,
`State` (reserved for a future status bar) and `Disabled`, with
`#[default]` on `Disabled`. -/
inductive PlayState
  | Main
  | State
  | Disabled
deriving DecidableEq, Repr

/-- The `#[default]` attribute of the Rust derive sits on `Disabled`. -/
instance : Inhabited PlayState := ⟨PlayState.Disabled⟩

/-- Modelled from the spec: the `RenetClient` session handle produced by
the Session Factory (`bevy_renet` / `new_renet_client`, not part of this
repository's `src/`); we record only the address it was built from. -/
structure RenetClient where
  addr : ConnectionAddr
deriving DecidableEq, Repr

/-- Modelled from the spec: the netcode transport handle, the second half
of the session pair produced by the Session Factory. -/
structure NetcodeClientTransport where
  addr : ConnectionAddr
deriving DecidableEq, Repr

/-- Modelled from the spec: the Session Factory (`new_renet_client`,
declared in the parent `state_manager` module, not shown in `src/`):
given a `ConnectionAddr` it constructs a `(client, transport)` pair in a
connecting-or-connected state, with no retry and no side effect. -/
def new_renet_client (addr : ConnectionAddr) : RenetClient × NetcodeClientTransport :=
  (⟨addr⟩, ⟨addr⟩)

/-- Bevy's `AmbientLight` resource (external to this repository): a colour
plus a brightness.  The colour is abstracted to a code (`0` stands for the
default `Color::WHITE`); the brightness is a rational standing for the
`f32` field. -/
structure AmbientLight where
  color : Nat
  brightness : ℚ
deriving DecidableEq, Repr

/-- Bevy's `Default` for `AmbientLight`: white colour, brightness `0.05`. -/
def AmbientLight.default : AmbientLight :=
  { color := 0, brightness := 0.05 }

/-- Modelled from the spec: `ClientLobby` (declared in `client/player`,
not shown in `src/`) is a roster mapping remote-player identifiers to
local representations; `ClientLobby::default()` is the empty roster. -/
structure ClientLobby where
  players : List (Nat × Nat)
deriving DecidableEq, Repr

/-- The `Default` instance of `ClientLobby`: an empty roster. -/
def ClientLobby.default : ClientLobby := ⟨[]⟩

/-- A network-health snapshot as returned by `RenetClient::network_info()`
(`renet`, external): its float metrics are abstracted to an opaque sample
code supplied by the environment each tick. -/
abbrev NetworkInfo := Nat

/-- Modelled from the spec: `RenetClientVisualizer<N>` (crate
`renet_visualizer`, not part of this repository): a fixed-capacity ring
buffer of historical network-info samples, capacity `N` a compile-time
const generic; oldest sample first. -/
structure RenetClientVisualizer (N : Nat) where
  buffer : List NetworkInfo
deriving DecidableEq, Repr

/-- Modelled from the spec: `add_network_info` appends one sample to the
ring buffer, evicting the oldest entry when the buffer is at capacity. -/
def RenetClientVisualizer.add_network_info {N : Nat}
    (v : RenetClientVisualizer N) (info : NetworkInfo) : RenetClientVisualizer N :=
  if v.buffer.length < N then ⟨v.buffer ++ [info]⟩ else ⟨v.buffer.tail ++ [info]⟩

/-- The keyboard keys observable by this plugin; `update_visulizer_system`
only ever tests `KeyCode::F1` (line 109), the other variants stand for
arbitrary unrelated keys. -/
inductive KeyCode
  | F1
  | F2
  | Escape
deriving DecidableEq, Repr

/-- The whole ECS world as far as `GamePlugin` reads or writes it:
the two state machines (plus the pending `NextState` of `PlayState`),
the singleton resources installed by `setup`, the visualizer singleton
installed at plugin build time, the `Local<bool>` of
`update_visulizer_system`, and the previous frame's pressed-key set
(backing `Input::just_pressed`). -/
structure AppState where
  connectionAddr : ConnectionAddr
  gameState : GameState
  playState : PlayState
  nextPlayState : Option PlayState
  client : Option RenetClient
  transport : Option NetcodeClientTransport
  ambientLight : Option AmbientLight
  lobby : Option ClientLobby
  visualizer : RenetClientVisualizer 200
  showVisualizer : Bool
  prevKeys : List KeyCode
deriving DecidableEq, Repr

/-- The environment's contribution to one tick: an external request on the
outer lifecycle state, the transport's connected report, the current
network-health snapshot, the pressed keys, and the transport-error events
that arrived since the last tick. -/
structure TickInput where
  requestGameState : Option GameState
  connected : Bool
  networkInfo : NetworkInfo
  keysPressed : List KeyCode
  transportErrors : List String
deriving DecidableEq, Repr

/-- Which systems of `GamePlugin` ran during a tick, whether the overlay
window was drawn, and the panic message if `panic_on_error_system`
panicked. -/
structure TickTrace where
  ranUpdateVisualizer : Bool
  overlayDrawn : Bool
  ranCenterCursor : Bool
  ranClientSyncPlayers : Bool
  ranClientSyncPlayersState : Bool
  ranMouseButtonSystem : Bool
  ranPanicOnError : Bool
  panicMsg : Option String
deriving DecidableEq, Repr

/-- The deferred effects of the `setup` system body (`game.rs` lines
85-99): four `Commands::insert_resource` calls and the
`NextState::set(PlayState::Main)` request, kept as data so that their
source order is itself a checkable artefact. -/
inductive Command
  | insertClient (c : RenetClient)
  | insertTransport (t : NetcodeClientTransport)
  | insertAmbientLight (l : AmbientLight)
  | insertClientLobby (l : ClientLobby)
  | setNextPlayState (p : PlayState)
deriving DecidableEq, Repr

/-- Applying one deferred effect to the world. -/
def applyCommand (s : AppState) : Command → AppState
  | Command.insertClient c => { s with client := some c }
  | Command.insertTransport t => { s with transport := some t }
  | Command.insertAmbientLight l => { s with ambientLight := some l }
  | Command.insertClientLobby l => { s with lobby := some l }
  | Command.setNextPlayState p => { s with nextPlayState := some p }

/-- The effect list of `setup` (`game.rs` lines 85-99), in source order:
create the session pair from the configured address, insert the client,
insert the transport, insert the ambient light with brightness `1.06` and
every other field default, insert a default (empty) `ClientLobby`, and
last of all request the play-state transition to `Main`. -/
def setupCommands (addr : ConnectionAddr) : List Command :=
  [ Command.insertClient (new_renet_client addr).1
  , Command.insertTransport (new_renet_client addr).2
  , Command.insertAmbientLight { AmbientLight.default with brightness := 1.06 }
  , Command.insertClientLobby ClientLobby.default
  , Command.setNextPlayState PlayState.Main ]

/-- The `setup` system (`game.rs` lines 85-99), run by the
`OnEnter(GameState::Game)` schedule: its effects applied in order. -/
def setup (s : AppState) : AppState :=
  (setupCommands s.connectionAddr).foldl applyCommand s

/-- Bevy's `apply_state_transition::<PlayState>`: the pending
`NextState<PlayState>` (if any) becomes the current play state. -/
def applyNextPlayState (s : AppState) : AppState :=
  match s.nextPlayState with
  | some p => { s with playState := p, nextPlayState := none }
  | none => s

/-- An external transition request on the outer `GameState`: the state is
replaced and, on entry into `GameState::Game` from a different state, the
`OnEnter(GameState::Game)` schedule — i.e. `setup`, registered at
`game.rs` line 50 — runs. -/
def applyGameStateRequest (s : AppState) (req : Option GameState) : AppState :=
  match req with
  | some g =>
    if g = GameState.Game ∧ s.gameState ≠ GameState.Game then
      setup { s with gameState := g }
    else
      { s with gameState := g }
  | none => s

/-- Bevy's state-transition step at the start of a tick: the pending
`NextState<PlayState>` (if any) is applied, then an external request on
the outer `GameState` is applied (running `setup` on entry into
`GameState::Game`). -/
def applyStateTransition (s : AppState) (req : Option GameState) : AppState :=
  applyGameStateRequest (applyNextPlayState s) req

/-- The body of `update_visulizer_system` (`game.rs` lines 101-115):
append the current `network_info()` snapshot to the visualizer, toggle the
`Local<bool>` on a just-pressed `F1`, and call `show_window` exactly when
the flag is set.  Returns the new buffer, the new flag, and whether the
overlay window was drawn. -/
def update_visulizer_system (visualizer : RenetClientVisualizer 200)
    (show_visualizer : Bool) (info : NetworkInfo) (justPressedF1 : Bool) :
    RenetClientVisualizer 200 × Bool × Bool :=
  let v := visualizer.add_network_info info
  let flag := if justPressedF1 then !show_visualizer else show_visualizer
  (v, flag, flag)

/-- The body of `panic_on_error_system` (`game.rs` lines 118-122): iterate
the pending `NetcodeTransportError` events and `panic!` with the message
of the first one; `none` when there is no pending event. -/
def panic_on_error_system (errors : List String) : Option String :=
  errors.head?

/-- Modelled from the spec: `bevy_renet::transport::client_connected()`
(external run condition) — true exactly when the transport resource is
present and reports an established connection. -/
def client_connected (s : AppState) (inp : TickInput) : Bool :=
  s.transport.isSome && inp.connected

/-- One tick of the app as configured by `GamePlugin::build` (`game.rs`
lines 48-82): state transitions (with `OnEnter` hooks) run first, the
input resource is refreshed, then the `Update` systems run under their
`run_if` conditions: `update_visulizer_system` under
`in_state(GameState::Game)` (line 57), `egui_center_cursor_system` under
`in_state(PlayState::Main)` (line 61), and the tuple
`(client_sync_players, client_sync_players_state, mouse_button_system,
panic_on_error_system)` under `client_connected()` and
`in_state(GameState::Game)` (lines 71-81). -/
def tick (s : AppState) (inp : TickInput) : AppState × TickTrace :=
  let st := applyStateTransition s inp.requestGameState
  let justPressedF1 : Bool :=
    decide (KeyCode.F1 ∈ inp.keysPressed ∧ KeyCode.F1 ∉ s.prevKeys)
  let inGame : Bool := decide (st.gameState = GameState.Game)
  let uv := update_visulizer_system st.visualizer st.showVisualizer inp.networkInfo justPressedF1
  let st1 := if inGame then { st with visualizer := uv.1, showVisualizer := uv.2.1 } else st
  let gate : Bool := client_connected st1 inp && inGame
  let pmsg : Option String := if gate then panic_on_error_system inp.transportErrors else none
  ({ st1 with prevKeys := inp.keysPressed },
   { ranUpdateVisualizer := inGame
     overlayDrawn := if inGame then uv.2.2 else false
     ranCenterCursor := decide (st1.playState = PlayState.Main)
     ranClientSyncPlayers := gate
     ranClientSyncPlayersState := gate
     ranMouseButtonSystem := gate
     ranPanicOnError := gate
     panicMsg := pmsg })

/-- The world right after `GamePlugin::build` (`game.rs` lines 48-82) and
before the first tick: `add_state::<PlayState>()` initialises the play
state to its default `Disabled` with no pending transition, no session
resources exist yet, the `RenetClientVisualizer::<200>` singleton is
installed (empty), the `Local<bool>` starts at `false`, and the app starts
outside the `Game` state. -/
def GamePlugin.build (addr : ConnectionAddr) : AppState :=
  { connectionAddr := addr
    gameState := GameState.Menu
    playState := PlayState.Disabled
    nextPlayState := none
    client := none
    transport := none
    ambientLight := none
    lobby := none
    visualizer := ⟨[]⟩
    showVisualizer := false
    prevKeys := [] }

/-- Running the app over a list of tick inputs, halting at the first
panic (`panic!` aborts the process, so no further tick runs): returns the
final world together with the traces of the ticks that ran. -/
def run (s : AppState) : List TickInput → AppState × List TickTrace
  | [] => (s, [])
  | inp :: rest =>
    let r := tick s inp
    match r.2.panicMsg with
    | some _ => (r.1, [r.2])
    | none =>
      let r2 := run r.1 rest
      (r2.1, r.2 :: r2.2)

/-- A tick on which the environment requests entry into the outer `Game`
state, with nothing else happening. -/
def enterGameTick : TickInput :=
  { requestGameState := some GameState.Game
    connected := false
    networkInfo := 0
    keysPressed := []
    transportErrors := [] }

/-- A tick with no external activity at all. -/
def idleTick : TickInput :=
  { requestGameState := none
    connected := false
    networkInfo := 0
    keysPressed := []
    transportErrors := [] }

/-- A tick on which the `F1` key is (still) held down; the transport is
not connected, so the gated set stays off. -/
def heldF1Tick (info : NetworkInfo) : TickInput :=
  { requestGameState := none
    connected := false
    networkInfo := info
    keysPressed := [KeyCode.F1]
    transportErrors := [] }

/-- A tick on which every key is released. -/
def releasedF1Tick (info : NetworkInfo) : TickInput :=
  { requestGameState := none
    connected := false
    networkInfo := info
    keysPressed := []
    transportErrors := [] }

/-- The concrete world of the spec's scenario: the plugin built with the
address `"example:7777"`, after the tick that enters the `Game` state. -/
def inGameState : AppState :=
  (run (GamePlugin.build "example:7777") [enterGameTick]).1

/-- The inductive invariant of the reachable worlds: the only pending
play-state request ever issued is `Main`; the play state is only ever
`Disabled` or `Main`; and whenever `Main` is current or pending, the
session pair, the bootstrap ambient light (brightness `1.06`) and the
freshly emptied lobby are installed. -/
def ReachInv (s : AppState) : Prop :=
  (s.nextPlayState = none ∨ s.nextPlayState = some PlayState.Main) ∧
  (s.playState = PlayState.Disabled ∨ s.playState = PlayState.Main) ∧
  ((s.playState = PlayState.Main ∨ s.nextPlayState = some PlayState.Main) →
    s.client.isSome = true ∧ s.transport.isSome = true ∧
    s.ambientLight = some { AmbientLight.default with brightness := 1.06 } ∧
    s.lobby = some ClientLobby.default)

/-- A tick inside the `Game` state with the transport connected and no
pending errors. -/
def connectedTick : TickInput :=
  { requestGameState := none
    connected := true
    networkInfo := 1
    keysPressed := []
    transportErrors := [] }

/-- A tick with the transport connected and one pending transport-error
event. -/
def errorTick : TickInput :=
  { requestGameState := none
    connected := true
    networkInfo := 0
    keysPressed := []
    transportErrors := ["transport error"] }

/-- The tick that enters the `Game` state while the transport is still
disconnected and a transport-error event is already pending. -/
def disconnectedErrorTick : TickInput :=
  { requestGameState := some GameState.Game
    connected := false
    networkInfo := 0
    keysPressed := []
    transportErrors := ["disconnected"] }

/-- A tick that requests the `Menu` state while an unrelated key is
pressed. -/
def menuTick : TickInput :=
  { requestGameState := some GameState.Menu
    connected := true
    networkInfo := 3
    keysPressed := [KeyCode.F2]
    transportErrors := [] }

/-- A tick pressing only the unrelated `F2` key. -/
def pressF2Tick : TickInput :=
  { requestGameState := none
    connected := false
    networkInfo := 2
    keysPressed := [KeyCode.F2]
    transportErrors := [] }

/-! ## Basic facts about `setup` and the state-transition step -/

/-- All fields of the world after `setup`, read off from its effect
list: the session pair, the ambient light at brightness `1.06`, the empty
lobby, and the pending `Main` play state; everything else untouched. -/
theorem setup_fields (s : AppState) :
    (setup s).client = some (new_renet_client s.connectionAddr).1 ∧
    (setup s).transport = some (new_renet_client s.connectionAddr).2 ∧
    (setup s).ambientLight = some { AmbientLight.default with brightness := 1.06 } ∧
    (setup s).lobby = some ClientLobby.default ∧
    (setup s).nextPlayState = some PlayState.Main ∧
    (setup s).playState = s.playState ∧
    (setup s).gameState = s.gameState ∧
    (setup s).visualizer = s.visualizer ∧
    (setup s).showVisualizer = s.showVisualizer ∧
    (setup s).prevKeys = s.prevKeys ∧
    (setup s).connectionAddr = s.connectionAddr :=
  ⟨rfl, rfl, rfl, rfl, rfl, rfl, rfl, rfl, rfl, rfl, rfl⟩

theorem applyNextPlayState_none (s : AppState) (h : s.nextPlayState = none) :
    applyNextPlayState s = s := by
  simp [applyNextPlayState, h]

theorem applyNextPlayState_some (s : AppState) (p : PlayState)
    (h : s.nextPlayState = some p) :
    applyNextPlayState s = { s with playState := p, nextPlayState := none } := by
  simp [applyNextPlayState, h]

theorem applyNextPlayState_visualizer (s : AppState) :
    (applyNextPlayState s).visualizer = s.visualizer := by
  unfold applyNextPlayState; cases s.nextPlayState <;> rfl

theorem applyNextPlayState_showVisualizer (s : AppState) :
    (applyNextPlayState s).showVisualizer = s.showVisualizer := by
  unfold applyNextPlayState; cases s.nextPlayState <;> rfl

theorem applyNextPlayState_prevKeys (s : AppState) :
    (applyNextPlayState s).prevKeys = s.prevKeys := by
  unfold applyNextPlayState; cases s.nextPlayState <;> rfl

theorem applyNextPlayState_gameState (s : AppState) :
    (applyNextPlayState s).gameState = s.gameState := by
  unfold applyNextPlayState; cases s.nextPlayState <;> rfl

theorem applyNextPlayState_connectionAddr (s : AppState) :
    (applyNextPlayState s).connectionAddr = s.connectionAddr := by
  unfold applyNextPlayState; cases s.nextPlayState <;> rfl

theorem applyGameStateRequest_none (s : AppState) :
    applyGameStateRequest s none = s := rfl

theorem applyGameStateRequest_enter (s : AppState)
    (h : s.gameState ≠ GameState.Game) :
    applyGameStateRequest s (some GameState.Game) =
      setup { s with gameState := GameState.Game } := by
  simp [applyGameStateRequest, h]

theorem applyGameStateRequest_stay (s : AppState) (g : GameState)
    (h : ¬(g = GameState.Game ∧ s.gameState ≠ GameState.Game)) :
    applyGameStateRequest s (some g) = { s with gameState := g } := by
  simp only [applyGameStateRequest]
  rw [if_neg h]

theorem applyGameStateRequest_visualizer (s : AppState) (req : Option GameState) :
    (applyGameStateRequest s req).visualizer = s.visualizer := by
  cases req with
  | none => rfl
  | some g =>
    simp only [applyGameStateRequest]
    split <;> rfl

theorem applyGameStateRequest_showVisualizer (s : AppState) (req : Option GameState) :
    (applyGameStateRequest s req).showVisualizer = s.showVisualizer := by
  cases req with
  | none => rfl
  | some g =>
    simp only [applyGameStateRequest]
    split <;> rfl

theorem applyGameStateRequest_prevKeys (s : AppState) (req : Option GameState) :
    (applyGameStateRequest s req).prevKeys = s.prevKeys := by
  cases req with
  | none => rfl
  | some g =>
    simp only [applyGameStateRequest]
    split <;> rfl

theorem applyGameStateRequest_playState (s : AppState) (req : Option GameState) :
    (applyGameStateRequest s req).playState = s.playState := by
  cases req with
  | none => rfl
  | some g =>
    simp only [applyGameStateRequest]
    split <;> rfl

theorem applyGameStateRequest_connectionAddr (s : AppState) (req : Option GameState) :
    (applyGameStateRequest s req).connectionAddr = s.connectionAddr := by
  cases req with
  | none => rfl
  | some g =>
    simp only [applyGameStateRequest]
    split <;> rfl

theorem applyStateTransition_visualizer (s : AppState) (req : Option GameState) :
    (applyStateTransition s req).visualizer = s.visualizer := by
  unfold applyStateTransition
  rw [applyGameStateRequest_visualizer, applyNextPlayState_visualizer]

theorem applyStateTransition_showVisualizer (s : AppState) (req : Option GameState) :
    (applyStateTransition s req).showVisualizer = s.showVisualizer := by
  unfold applyStateTransition
  rw [applyGameStateRequest_showVisualizer, applyNextPlayState_showVisualizer]

theorem applyStateTransition_prevKeys (s : AppState) (req : Option GameState) :
    (applyStateTransition s req).prevKeys = s.prevKeys := by
  unfold applyStateTransition
  rw [applyGameStateRequest_prevKeys, applyNextPlayState_prevKeys]

theorem applyStateTransition_connectionAddr (s : AppState) (req : Option GameState) :
    (applyStateTransition s req).connectionAddr = s.connectionAddr := by
  unfold applyStateTransition
  rw [applyGameStateRequest_connectionAddr, applyNextPlayState_connectionAddr]

/-! ## Projections of one tick -/

theorem tick_playState (s : AppState) (inp : TickInput) :
    (tick s inp).1.playState = (applyStateTransition s inp.requestGameState).playState := by
  by_cases h : (applyStateTransition s inp.requestGameState).gameState = GameState.Game <;>
    simp [tick, update_visulizer_system, h]

theorem tick_nextPlayState (s : AppState) (inp : TickInput) :
    (tick s inp).1.nextPlayState = (applyStateTransition s inp.requestGameState).nextPlayState := by
  by_cases h : (applyStateTransition s inp.requestGameState).gameState = GameState.Game <;>
    simp [tick, update_visulizer_system, h]

theorem tick_gameState (s : AppState) (inp : TickInput) :
    (tick s inp).1.gameState = (applyStateTransition s inp.requestGameState).gameState := by
  by_cases h : (applyStateTransition s inp.requestGameState).gameState = GameState.Game <;>
    simp [tick, update_visulizer_system, h]

theorem tick_client (s : AppState) (inp : TickInput) :
    (tick s inp).1.client = (applyStateTransition s inp.requestGameState).client := by
  by_cases h : (applyStateTransition s inp.requestGameState).gameState = GameState.Game <;>
    simp [tick, update_visulizer_system, h]

theorem tick_transport (s : AppState) (inp : TickInput) :
    (tick s inp).1.transport = (applyStateTransition s inp.requestGameState).transport := by
  by_cases h : (applyStateTransition s inp.requestGameState).gameState = GameState.Game <;>
    simp [tick, update_visulizer_system, h]

theorem tick_ambientLight (s : AppState) (inp : TickInput) :
    (tick s inp).1.ambientLight = (applyStateTransition s inp.requestGameState).ambientLight := by
  by_cases h : (applyStateTransition s inp.requestGameState).gameState = GameState.Game <;>
    simp [tick, update_visulizer_system, h]

theorem tick_lobby (s : AppState) (inp : TickInput) :
    (tick s inp).1.lobby = (applyStateTransition s inp.requestGameState).lobby := by
  by_cases h : (applyStateTransition s inp.requestGameState).gameState = GameState.Game <;>
    simp [tick, update_visulizer_system, h]

theorem tick_connectionAddr (s : AppState) (inp : TickInput) :
    (tick s inp).1.connectionAddr = s.connectionAddr := by
  by_cases h : (applyStateTransition s inp.requestGameState).gameState = GameState.Game <;>
    simp [tick, update_visulizer_system, h, applyStateTransition_connectionAddr]

theorem tick_prevKeys (s : AppState) (inp : TickInput) :
    (tick s inp).1.prevKeys = inp.keysPressed := by
  by_cases h : (applyStateTransition s inp.requestGameState).gameState = GameState.Game <;>
    simp [tick, update_visulizer_system, h]

theorem tick_visualizer (s : AppState) (inp : TickInput) :
    (tick s inp).1.visualizer =
      if (applyStateTransition s inp.requestGameState).gameState = GameState.Game
      then s.visualizer.add_network_info inp.networkInfo
      else s.visualizer := by
  by_cases h : (applyStateTransition s inp.requestGameState).gameState = GameState.Game <;>
    simp [tick, update_visulizer_system, h, applyStateTransition_visualizer]

theorem tick_showVisualizer (s : AppState) (inp : TickInput) :
    (tick s inp).1.showVisualizer =
      if (applyStateTransition s inp.requestGameState).gameState = GameState.Game
          ∧ KeyCode.F1 ∈ inp.keysPressed ∧ KeyCode.F1 ∉ s.prevKeys
      then !s.showVisualizer
      else s.showVisualizer := by
  by_cases h : (applyStateTransition s inp.requestGameState).gameState = GameState.Game
  · by_cases hj : KeyCode.F1 ∈ inp.keysPressed ∧ KeyCode.F1 ∉ s.prevKeys <;>
      simp [tick, update_visulizer_system, h, hj, applyStateTransition_showVisualizer]
  · simp [tick, update_visulizer_system, h, applyStateTransition_showVisualizer]

theorem tick_ranUpdateVisualizer (s : AppState) (inp : TickInput) :
    (tick s inp).2.ranUpdateVisualizer =
      decide ((applyStateTransition s inp.requestGameState).gameState = GameState.Game) := rfl

theorem tick_ranClientSyncPlayers (s : AppState) (inp : TickInput) :
    (tick s inp).2.ranClientSyncPlayers =
      (client_connected (applyStateTransition s inp.requestGameState) inp &&
        decide ((applyStateTransition s inp.requestGameState).gameState = GameState.Game)) := by
  by_cases h : (applyStateTransition s inp.requestGameState).gameState = GameState.Game <;>
    simp [tick, update_visulizer_system, client_connected, h]

theorem tick_ranClientSyncPlayersState (s : AppState) (inp : TickInput) :
    (tick s inp).2.ranClientSyncPlayersState =
      (client_connected (applyStateTransition s inp.requestGameState) inp &&
        decide ((applyStateTransition s inp.requestGameState).gameState = GameState.Game)) := by
  by_cases h : (applyStateTransition s inp.requestGameState).gameState = GameState.Game <;>
    simp [tick, update_visulizer_system, client_connected, h]

theorem tick_ranMouseButtonSystem (s : AppState) (inp : TickInput) :
    (tick s inp).2.ranMouseButtonSystem =
      (client_connected (applyStateTransition s inp.requestGameState) inp &&
        decide ((applyStateTransition s inp.requestGameState).gameState = GameState.Game)) := by
  by_cases h : (applyStateTransition s inp.requestGameState).gameState = GameState.Game <;>
    simp [tick, update_visulizer_system, client_connected, h]

theorem tick_ranPanicOnError (s : AppState) (inp : TickInput) :
    (tick s inp).2.ranPanicOnError =
      (client_connected (applyStateTransition s inp.requestGameState) inp &&
        decide ((applyStateTransition s inp.requestGameState).gameState = GameState.Game)) := by
  by_cases h : (applyStateTransition s inp.requestGameState).gameState = GameState.Game <;>
    simp [tick, update_visulizer_system, client_connected, h]

theorem tick_panicMsg (s : AppState) (inp : TickInput) :
    (tick s inp).2.panicMsg =
      (if (tick s inp).2.ranPanicOnError = true
       then panic_on_error_system inp.transportErrors
       else none) := by
  by_cases h : (applyStateTransition s inp.requestGameState).gameState = GameState.Game <;>
  · by_cases hc : client_connected (applyStateTransition s inp.requestGameState) inp = true <;>
      simp [tick, update_visulizer_system, client_connected, h]

theorem tick_overlayDrawn (s : AppState) (inp : TickInput) :
    (tick s inp).2.overlayDrawn =
      (decide ((applyStateTransition s inp.requestGameState).gameState = GameState.Game) &&
        (tick s inp).1.showVisualizer) := by
  by_cases h : (applyStateTransition s inp.requestGameState).gameState = GameState.Game <;>
    simp [tick, update_visulizer_system, h]

/-! ## Unfolding `run` -/

theorem run_nil (s : AppState) : run s [] = (s, []) := rfl

theorem run_cons_panic (s : AppState) (inp : TickInput) (rest : List TickInput)
    (m : String) (h : (tick s inp).2.panicMsg = some m) :
    run s (inp :: rest) = ((tick s inp).1, [(tick s inp).2]) := by
  simp [run, h]

theorem run_cons_ok (s : AppState) (inp : TickInput) (rest : List TickInput)
    (h : (tick s inp).2.panicMsg = none) :
    run s (inp :: rest) =
      ((run (tick s inp).1 rest).1, (tick s inp).2 :: (run (tick s inp).1 rest).2) := by
  simp [run, h]

/-! ## The reachability invariant -/

theorem setup_client (s : AppState) :
    (setup s).client = some (new_renet_client s.connectionAddr).1 := rfl

theorem setup_transport (s : AppState) :
    (setup s).transport = some (new_renet_client s.connectionAddr).2 := rfl

theorem setup_ambientLight (s : AppState) :
    (setup s).ambientLight = some { AmbientLight.default with brightness := 1.06 } := rfl

theorem setup_lobby (s : AppState) :
    (setup s).lobby = some ClientLobby.default := rfl

theorem setup_nextPlayState (s : AppState) :
    (setup s).nextPlayState = some PlayState.Main := rfl

theorem setup_playState (s : AppState) :
    (setup s).playState = s.playState := rfl

theorem applyNextPlayState_inv (s : AppState) (h : ReachInv s) :
    ReachInv (applyNextPlayState s) := by
  obtain ⟨h1, h2, h3⟩ := h
  rcases h1 with h1 | h1
  · rw [applyNextPlayState_none s h1]
    exact ⟨Or.inl h1, h2, h3⟩
  · rw [applyNextPlayState_some s _ h1]
    refine ⟨Or.inl rfl, Or.inr rfl, fun _ => ?_⟩
    exact h3 (Or.inr h1)

theorem applyGameStateRequest_inv (s : AppState) (req : Option GameState)
    (h : ReachInv s) : ReachInv (applyGameStateRequest s req) := by
  obtain ⟨h1, h2, h3⟩ := h
  cases req with
  | none => exact ⟨h1, h2, h3⟩
  | some g =>
    by_cases hE : g = GameState.Game ∧ s.gameState ≠ GameState.Game
    · simp only [applyGameStateRequest, if_pos hE]
      refine ⟨Or.inr (setup_nextPlayState _), ?_, fun _ => ?_⟩
      · rw [setup_playState]; exact h2
      · exact ⟨by rw [setup_client]; rfl, by rw [setup_transport]; rfl,
          setup_ambientLight _, setup_lobby _⟩
    · rw [applyGameStateRequest_stay s g hE]
      exact ⟨h1, h2, fun hm => h3 hm⟩

theorem applyStateTransition_inv (s : AppState) (req : Option GameState)
    (h : ReachInv s) : ReachInv (applyStateTransition s req) :=
  applyGameStateRequest_inv (applyNextPlayState s) req (applyNextPlayState_inv s h)

theorem tick_inv (s : AppState) (inp : TickInput) (h : ReachInv s) :
    ReachInv (tick s inp).1 := by
  have ha := applyStateTransition_inv s inp.requestGameState h
  obtain ⟨a1, a2, a3⟩ := ha
  refine ⟨?_, ?_, ?_⟩
  · rw [tick_nextPlayState]; exact a1
  · rw [tick_playState]; exact a2
  · intro hm
    rw [tick_client, tick_transport, tick_ambientLight, tick_lobby]
    apply a3
    rwa [tick_playState, tick_nextPlayState] at hm

theorem run_inv (inputs : List TickInput) :
    ∀ s : AppState, ReachInv s → ReachInv (run s inputs).1 := by
  induction inputs with
  | nil => intro s h; exact h
  | cons inp rest ih =>
    intro s h
    have ht := tick_inv s inp h
    cases hp : (tick s inp).2.panicMsg with
    | some m => rw [run_cons_panic s inp rest m hp]; exact ht
    | none => rw [run_cons_ok s inp rest hp]; exact ih (tick s inp).1 ht

theorem build_inv (addr : ConnectionAddr) : ReachInv (GamePlugin.build addr) := by
  refine ⟨Or.inl rfl, Or.inl rfl, fun hm => ?_⟩
  rcases hm with hm | hm <;> simp [GamePlugin.build] at hm

/-! ## Claim C1 -/

/-- Claim C1: on entry into the outer `Game` state the bootstrap `setup`
runs (once per entry, edge-triggered) and performs, in source order:
create the session pair from the configured `ConnectionAddr`, install the
pair, install an ambient light with brightness exactly `1.06` and all
other fields default, install a freshly emptied `ClientLobby`, and only
after all installs request the play-state transition to `Main`;
consequently no reachable world has `PlayState = Main` without the
session, lighting and lobby resources installed. -/
theorem C1_bootstrap_order_and_consequence (addr : ConnectionAddr)
    (inputs : List TickInput) :
    (setupCommands addr =
      [ Command.insertClient (new_renet_client addr).1
      , Command.insertTransport (new_renet_client addr).2
      , Command.insertAmbientLight { AmbientLight.default with brightness := 1.06 }
      , Command.insertClientLobby ClientLobby.default
      , Command.setNextPlayState PlayState.Main ]) ∧
    (∀ s : AppState, s.connectionAddr = addr →
      (setup s).client = some (new_renet_client addr).1 ∧
      (setup s).transport = some (new_renet_client addr).2 ∧
      (setup s).ambientLight = some { AmbientLight.default with brightness := 1.06 } ∧
      (setup s).lobby = some ClientLobby.default ∧
      (setup s).nextPlayState = some PlayState.Main ∧
      (setup s).playState = s.playState) ∧
    (∀ s : AppState, s.gameState ≠ GameState.Game → s.nextPlayState = none →
      applyStateTransition s (some GameState.Game) =
        setup { s with gameState := GameState.Game }) ∧
    (∀ s : AppState, s.gameState = GameState.Game → s.nextPlayState = none →
      applyStateTransition s (some GameState.Game) =
        { s with gameState := GameState.Game }) ∧
    ((run (GamePlugin.build addr) inputs).1.playState = PlayState.Main →
      (run (GamePlugin.build addr) inputs).1.client.isSome = true ∧
      (run (GamePlugin.build addr) inputs).1.transport.isSome = true ∧
      (run (GamePlugin.build addr) inputs).1.ambientLight =
        some { AmbientLight.default with brightness := 1.06 } ∧
      (run (GamePlugin.build addr) inputs).1.lobby = some ClientLobby.default) := by
  refine ⟨rfl, ?_, ?_, ?_, ?_⟩
  · intro s hs
    rw [← hs]
    exact ⟨setup_client s, setup_transport s, setup_ambientLight s, setup_lobby s,
      setup_nextPlayState s, setup_playState s⟩
  · intro s hg hn
    unfold applyStateTransition
    rw [applyNextPlayState_none s hn, applyGameStateRequest_enter s hg]
  · intro s hg hn
    unfold applyStateTransition
    rw [applyNextPlayState_none s hn,
      applyGameStateRequest_stay s GameState.Game (fun hc => hc.2 hg)]
  · intro hm
    exact (run_inv inputs (GamePlugin.build addr) (build_inv addr)).2.2 (Or.inl hm)

/-- Witness for C1: the spec's scenario, entering `Game` with address
`"example:7777"` and letting the pending transition apply on the next
tick: the play state is `Main` and the theorem yields the installed
lighting and the empty lobby. -/
theorem C1_bootstrap_order_and_consequence_witness :
    (run (GamePlugin.build "example:7777") [enterGameTick, idleTick]).1.playState =
      PlayState.Main ∧
    (run (GamePlugin.build "example:7777") [enterGameTick, idleTick]).1.ambientLight =
      some { AmbientLight.default with brightness := 1.06 } ∧
    (run (GamePlugin.build "example:7777") [enterGameTick, idleTick]).1.lobby =
      some ClientLobby.default :=
  have hm : (run (GamePlugin.build "example:7777") [enterGameTick, idleTick]).1.playState =
      PlayState.Main := by decide
  ⟨hm,
   ((C1_bootstrap_order_and_consequence "example:7777" [enterGameTick, idleTick]).2.2.2.2
      hm).2.2.1,
   ((C1_bootstrap_order_and_consequence "example:7777" [enterGameTick, idleTick]).2.2.2.2
      hm).2.2.2⟩

/-! ## Claim C2 -/

/-- Claim C2: the gated systems — the player-state synchronization
systems `client_sync_players` and `client_sync_players_state` and the
pointer/look-input system `mouse_button_system` — run on a tick exactly
when the outer state is `Game` and the transport reports an established
connection; on any tick where this predicate is false none of them
executes. -/
theorem C2_gate_controls_sync_systems (s : AppState) (inp : TickInput) :
    ((tick s inp).2.ranClientSyncPlayers = true ↔
      ((applyStateTransition s inp.requestGameState).gameState = GameState.Game ∧
        client_connected (applyStateTransition s inp.requestGameState) inp = true)) ∧
    ((tick s inp).2.ranClientSyncPlayersState = true ↔
      ((applyStateTransition s inp.requestGameState).gameState = GameState.Game ∧
        client_connected (applyStateTransition s inp.requestGameState) inp = true)) ∧
    ((tick s inp).2.ranMouseButtonSystem = true ↔
      ((applyStateTransition s inp.requestGameState).gameState = GameState.Game ∧
        client_connected (applyStateTransition s inp.requestGameState) inp = true)) := by
  refine ⟨?_, ?_, ?_⟩
  · rw [tick_ranClientSyncPlayers]
    simp [Bool.and_eq_true, and_comm]
  · rw [tick_ranClientSyncPlayersState]
    simp [Bool.and_eq_true, and_comm]
  · rw [tick_ranMouseButtonSystem]
    simp [Bool.and_eq_true, and_comm]

/-- Witness for C2: in the in-game world with a connected transport the
sync systems run; on the very first tick (outer state `Menu`, transport
absent) none of them runs. -/
theorem C2_gate_controls_sync_systems_witness :
    (tick inGameState connectedTick).2.ranClientSyncPlayers = true ∧
    (tick (GamePlugin.build "example:7777") idleTick).2.ranMouseButtonSystem = false :=
  ⟨((C2_gate_controls_sync_systems inGameState connectedTick).1).mpr
      ⟨by decide, by decide⟩,
   by
    have h := (C2_gate_controls_sync_systems (GamePlugin.build "example:7777") idleTick).2.2
    rcases hb : (tick (GamePlugin.build "example:7777") idleTick).2.ranMouseButtonSystem with _ | _
    · rfl
    · exact absurd (h.mp hb).1 (by decide)⟩

/-! ## Claim C3 -/

/-- Claim C3: whenever `panic_on_error_system` drains the pending
transport-error events, the first error observed causes immediate,
unrecoverable process termination carrying that error's message — the
run stops at this tick, no later tick executes, and the error is not
absorbed. -/
theorem C3_first_error_panics (s : AppState) (inp : TickInput)
    (rest : List TickInput) (e : String) (es : List String)
    (he : inp.transportErrors = e :: es)
    (hr : (tick s inp).2.ranPanicOnError = true) :
    (tick s inp).2.panicMsg = some e ∧
    run s (inp :: rest) = ((tick s inp).1, [(tick s inp).2]) := by
  have hp : (tick s inp).2.panicMsg = some e := by
    rw [tick_panicMsg, if_pos hr]
    simp [panic_on_error_system, he]
  exact ⟨hp, run_cons_panic s inp rest e hp⟩

/-- Witness for C3: in the in-game connected world a single pending
transport error terminates the run with exactly that error's message,
and the scheduled later tick never happens. -/
theorem C3_first_error_panics_witness :
    (tick inGameState errorTick).2.panicMsg = some "transport error" ∧
    run inGameState [errorTick, idleTick] =
      ((tick inGameState errorTick).1, [(tick inGameState errorTick).2]) :=
  C3_first_error_panics inGameState errorTick [idleTick] "transport error" []
    rfl (by decide)

/-! ## Claim C4 -/

/-- Counterexample to claim C4: `update_visulizer_system` is registered
under `run_if(in_state(GameState::Game))` (`game.rs` line 57), so on a
tick taken outside the `Game` state — in particular before any session
exists (`client = none`) — the visualizer does not run and the ring
buffer does not grow by one entry, contradicting "on every tick,
regardless of the connection gate and even before a session exists,
... the buffer grows by exactly one entry per tick". -/
theorem C4_per_tick_sampling_counterexample :
    (GamePlugin.build "example:7777").client = none ∧
    (tick (GamePlugin.build "example:7777") idleTick).2.ranUpdateVisualizer = false ∧
    (tick (GamePlugin.build "example:7777") idleTick).1.visualizer.buffer = [] := by
  decide

/-- Claim C4 amended: on every tick whose outer state is `Game` —
regardless of the connection gate, so also while the transport is still
disconnected — `update_visulizer_system` runs and appends exactly the
current health snapshot to the ring buffer (one entry of growth while
below capacity); on a tick outside the `Game` state it does not run and
the buffer is unchanged. -/
theorem C4_per_tick_sampling_amended (s : AppState) (inp : TickInput) :
    ((applyStateTransition s inp.requestGameState).gameState = GameState.Game →
      (tick s inp).2.ranUpdateVisualizer = true ∧
      (tick s inp).1.visualizer = s.visualizer.add_network_info inp.networkInfo ∧
      (s.visualizer.buffer.length < 200 →
        (tick s inp).1.visualizer.buffer.length = s.visualizer.buffer.length + 1)) ∧
    ((applyStateTransition s inp.requestGameState).gameState ≠ GameState.Game →
      (tick s inp).2.ranUpdateVisualizer = false ∧
      (tick s inp).1.visualizer = s.visualizer) := by
  constructor
  · intro h
    refine ⟨by rw [tick_ranUpdateVisualizer]; simp [h],
      by rw [tick_visualizer, if_pos h], ?_⟩
    intro hlt
    rw [tick_visualizer, if_pos h]
    unfold RenetClientVisualizer.add_network_info
    rw [if_pos hlt]
    simp
  · intro h
    exact ⟨by rw [tick_ranUpdateVisualizer]; simp [h],
      by rw [tick_visualizer, if_neg h]⟩

/-- Witness for C4 (amended): in the in-game world, on a tick with the
transport disconnected, the visualizer still runs and appends the
snapshot `42`, growing the buffer from 1 entry to 2. -/
theorem C4_per_tick_sampling_amended_witness :
    (tick inGameState (releasedF1Tick 42)).2.ranUpdateVisualizer = true ∧
    (tick inGameState (releasedF1Tick 42)).1.visualizer =
      inGameState.visualizer.add_network_info 42 ∧
    (inGameState.visualizer.buffer.length < 200 →
      (tick inGameState (releasedF1Tick 42)).1.visualizer.buffer.length =
        inGameState.visualizer.buffer.length + 1) :=
  (C4_per_tick_sampling_amended inGameState (releasedF1Tick 42)).1 (by decide)

/-! ## Claim C5 -/

/-- Counterexample to claim C5: `panic_on_error_system` sits inside the
system tuple gated by `client_connected()` and `in_state(GameState::Game)`
(`game.rs` lines 71-81), so on the tick that enters `Game` with the
transport still disconnected and one transport-error event pending, the
visualizer runs but the error sink does not — the pending error is not
drained and no panic happens — contradicting "the error sink drains
transport-error events each frame even on ticks where the Connection
Gate predicate is false". -/
theorem C5_sink_every_tick_counterexample :
    (tick (GamePlugin.build "example:7777") disconnectedErrorTick).2.ranUpdateVisualizer
      = true ∧
    (tick (GamePlugin.build "example:7777") disconnectedErrorTick).2.ranPanicOnError
      = false ∧
    (tick (GamePlugin.build "example:7777") disconnectedErrorTick).2.panicMsg = none := by
  decide

/-- Claim C5 amended: the Diagnostics Visualizer runs on every tick whose
outer state is `Game`, regardless of the connection gate; the Fail-Fast
Error Sink, however, is registered inside the connection-gated tuple and
runs exactly on the ticks where the outer state is `Game` and the
transport reports connected — on every other tick the pending
transport-error events are left undrained. -/
theorem C5_sink_gating_amended (s : AppState) (inp : TickInput) :
    ((applyStateTransition s inp.requestGameState).gameState = GameState.Game →
      (tick s inp).2.ranUpdateVisualizer = true) ∧
    ((tick s inp).2.ranPanicOnError = true ↔
      ((applyStateTransition s inp.requestGameState).gameState = GameState.Game ∧
        client_connected (applyStateTransition s inp.requestGameState) inp = true)) := by
  constructor
  · intro h
    rw [tick_ranUpdateVisualizer]
    simp [h]
  · rw [tick_ranPanicOnError]
    simp [Bool.and_eq_true, and_comm]

/-- Witness for C5 (amended): in the in-game world the visualizer runs on
a disconnected tick, and the error sink runs on a connected one. -/
theorem C5_sink_gating_amended_witness :
    (tick inGameState (releasedF1Tick 7)).2.ranUpdateVisualizer = true ∧
    (tick inGameState connectedTick).2.ranPanicOnError = true :=
  ⟨(C5_sink_gating_amended inGameState (releasedF1Tick 7)).1 (by decide),
   ((C5_sink_gating_amended inGameState connectedTick).2).mpr ⟨by decide, by decide⟩⟩

/-! ## Claim C6 -/

theorem applyGameStateRequest_no_setup (s : AppState) (req : Option GameState)
    (h : req ≠ some GameState.Game) :
    (applyGameStateRequest s req).playState = s.playState ∧
    (applyGameStateRequest s req).nextPlayState = s.nextPlayState := by
  cases req with
  | none => exact ⟨rfl, rfl⟩
  | some g =>
    have hg : g ≠ GameState.Game := fun hgg => h (by rw [hgg])
    rw [applyGameStateRequest_stay s g (fun hc => hg hc.1)]
    exact ⟨rfl, rfl⟩

theorem tick_no_game_request (s : AppState) (inp : TickInput)
    (h1 : s.playState = PlayState.Disabled) (h2 : s.nextPlayState = none)
    (hreq : inp.requestGameState ≠ some GameState.Game) :
    (tick s inp).1.playState = PlayState.Disabled ∧
    (tick s inp).1.nextPlayState = none := by
  have hnp := applyNextPlayState_none s h2
  have hg := applyGameStateRequest_no_setup (applyNextPlayState s) inp.requestGameState hreq
  constructor
  · rw [tick_playState]
    unfold applyStateTransition
    rw [hg.1, hnp, h1]
  · rw [tick_nextPlayState]
    unfold applyStateTransition
    rw [hg.2, hnp, h2]

theorem run_no_game_request (inputs : List TickInput) :
    ∀ s : AppState, s.playState = PlayState.Disabled → s.nextPlayState = none →
      (∀ i ∈ inputs, i.requestGameState ≠ some GameState.Game) →
      (run s inputs).1.playState = PlayState.Disabled ∧
      (run s inputs).1.nextPlayState = none := by
  induction inputs with
  | nil => intro s h1 h2 _; exact ⟨h1, h2⟩
  | cons inp rest ih =>
    intro s h1 h2 hno
    have hreq : inp.requestGameState ≠ some GameState.Game :=
      hno inp (List.mem_cons_self inp rest)
    have ht := tick_no_game_request s inp h1 h2 hreq
    cases hp : (tick s inp).2.panicMsg with
    | some m => rw [run_cons_panic s inp rest m hp]; exact ht
    | none =>
      rw [run_cons_ok s inp rest hp]
      exact ih (tick s inp).1 ht.1 ht.2 (fun i hi => hno i (List.mem_cons_of_mem inp hi))

/-- Claim C6: `PlayState` is an enumeration with exactly the values
`Main`, `State` and `Disabled`, its default is `Disabled`, and on every
run in which the Lifecycle Bootstrap never triggers (no tick requests
entry into the outer `Game` state) the play state stays `Disabled`. -/
theorem C6_playState_enum_and_default (addr : ConnectionAddr)
    (inputs : List TickInput)
    (h : ∀ i ∈ inputs, i.requestGameState ≠ some GameState.Game) :
    (∀ p : PlayState,
      p = PlayState.Main ∨ p = PlayState.State ∨ p = PlayState.Disabled) ∧
    (default : PlayState) = PlayState.Disabled ∧
    (GamePlugin.build addr).playState = PlayState.Disabled ∧
    (run (GamePlugin.build addr) inputs).1.playState = PlayState.Disabled := by
  refine ⟨?_, rfl, rfl, ?_⟩
  · intro p
    cases p
    · exact Or.inl rfl
    · exact Or.inr (Or.inl rfl)
    · exact Or.inr (Or.inr rfl)
  · exact (run_no_game_request inputs (GamePlugin.build addr) rfl rfl h).1

/-- Witness for C6: a run that stays in the menu (one `Menu` request with
an unrelated key pressed) leaves the play state `Disabled`. -/
theorem C6_playState_enum_and_default_witness :
    (run (GamePlugin.build "example:7777") [menuTick, idleTick]).1.playState =
      PlayState.Disabled :=
  (C6_playState_enum_and_default "example:7777" [menuTick, idleTick]
    (by decide)).2.2.2

/-! ## Claim C7 -/

theorem add_network_info_length_le {N : Nat} (hN : 0 < N)
    (v : RenetClientVisualizer N) (x : NetworkInfo)
    (h : v.buffer.length ≤ N) :
    (v.add_network_info x).buffer.length ≤ N := by
  unfold RenetClientVisualizer.add_network_info
  split
  · next hlt => simpa using hlt
  · next hge =>
    simp only [List.length_append, List.length_tail, List.length_cons,
      List.length_nil]
    omega

theorem add_network_info_buffer {N : Nat} (v : RenetClientVisualizer N)
    (x : NetworkInfo) :
    (v.add_network_info x).buffer =
      if v.buffer.length < N then v.buffer ++ [x] else v.buffer.tail ++ [x] := by
  unfold RenetClientVisualizer.add_network_info
  split <;> rfl

theorem foldl_add_network_info_buffer {N : Nat} (hN : 0 < N)
    (xs : List NetworkInfo) :
    (xs.foldl RenetClientVisualizer.add_network_info
        (⟨[]⟩ : RenetClientVisualizer N)).buffer = xs.drop (xs.length - N) := by
  induction xs using List.reverseRecOn with
  | nil => simp
  | append_singleton ys x ih =>
    rw [List.foldl_append]
    simp only [List.foldl_cons, List.foldl_nil]
    rw [add_network_info_buffer, ih]
    by_cases hlen : ys.length < N
    · rw [if_pos (by simp only [List.length_drop]; omega)]
      have h0 : ys.length - N = 0 := by omega
      have h1 : (ys ++ [x]).length - N = 0 := by
        simp only [List.length_append, List.length_cons, List.length_nil]
        omega
      rw [h0, h1, List.drop_zero, List.drop_zero]
    · rw [if_neg (by simp only [List.length_drop]; omega)]
      have hge : N ≤ ys.length := Nat.le_of_not_lt hlen
      have h1 : (ys ++ [x]).length - N = (ys.length - N) + 1 := by
        simp only [List.length_append, List.length_cons, List.length_nil]
        omega
      rw [h1, List.tail_drop, List.drop_append_of_le_length (by omega)]

theorem tick_buffer_le (s : AppState) (inp : TickInput)
    (h : s.visualizer.buffer.length ≤ 200) :
    (tick s inp).1.visualizer.buffer.length ≤ 200 := by
  rw [tick_visualizer]
  split
  · exact add_network_info_length_le (by norm_num) s.visualizer inp.networkInfo h
  · exact h

theorem run_buffer_le (inputs : List TickInput) :
    ∀ s : AppState, s.visualizer.buffer.length ≤ 200 →
      (run s inputs).1.visualizer.buffer.length ≤ 200 := by
  induction inputs with
  | nil => intro s h; exact h
  | cons inp rest ih =>
    intro s h
    have ht := tick_buffer_le s inp h
    cases hp : (tick s inp).2.panicMsg with
    | some m => rw [run_cons_panic s inp rest m hp]; exact ht
    | none => rw [run_cons_ok s inp rest hp]; exact ih (tick s inp).1 ht

/-- Claim C7: the diagnostics ring buffer has a hard compile-time
capacity of exactly 200 samples (`RenetClientVisualizer::<200>`), is
created empty once at plugin install time, never holds more than 200
entries on any run, and after 200 or more samples contains exactly the
200 most recent samples in arrival order, oldest evicted first. -/
theorem C7_ring_buffer_capacity (addr : ConnectionAddr)
    (inputs : List TickInput) (xs : List NetworkInfo) :
    (GamePlugin.build addr).visualizer.buffer = [] ∧
    (run (GamePlugin.build addr) inputs).1.visualizer.buffer.length ≤ 200 ∧
    (xs.foldl RenetClientVisualizer.add_network_info
        (GamePlugin.build addr).visualizer).buffer = xs.drop (xs.length - 200) ∧
    (200 ≤ xs.length →
      (xs.foldl RenetClientVisualizer.add_network_info
          (GamePlugin.build addr).visualizer).buffer.length = 200) := by
  have hb : (GamePlugin.build addr).visualizer = (⟨[]⟩ : RenetClientVisualizer 200) := rfl
  have hfold := foldl_add_network_info_buffer (by norm_num : (0:Nat) < 200) xs
  rw [hb]
  refine ⟨rfl, run_buffer_le inputs (GamePlugin.build addr) (by simp [GamePlugin.build]),
    hfold, ?_⟩
  intro hge
  rw [hfold, List.length_drop]
  omega

set_option maxRecDepth 4000 in
/-- Witness for C7: feeding the 250 samples `0, 1, ..., 249` into the
buffer leaves exactly the last 200 of them, in order. -/
theorem C7_ring_buffer_capacity_witness :
    200 ≤ (List.range 250).length ∧
    ((List.range 250).foldl RenetClientVisualizer.add_network_info
        (GamePlugin.build "example:7777").visualizer).buffer =
      (List.range 250).drop 50 ∧
    ((List.range 250).foldl RenetClientVisualizer.add_network_info
        (GamePlugin.build "example:7777").visualizer).buffer.length = 200 :=
  ⟨by simp,
   by
    have h := (C7_ring_buffer_capacity "example:7777" [] (List.range 250)).2.2.1
    rw [List.length_range] at h
    norm_num at h
    exact h,
   (C7_ring_buffer_capacity "example:7777" [] (List.range 250)).2.2.2 (by simp)⟩

/-! ## Claim C8 -/

theorem tick_no_panic_of_disconnected (s : AppState) (inp : TickInput)
    (h : inp.connected = false) : (tick s inp).2.panicMsg = none := by
  rw [tick_panicMsg, tick_ranPanicOnError]
  simp [client_connected, h]

theorem applyStateTransition_gameState_none (s : AppState) :
    (applyStateTransition s none).gameState = s.gameState := by
  unfold applyStateTransition
  rw [applyGameStateRequest_none, applyNextPlayState_gameState]

theorem tick_heldF1_pressed (t : AppState) (info : NetworkInfo)
    (hg : t.gameState = GameState.Game) (hp : KeyCode.F1 ∉ t.prevKeys) :
    (tick t (heldF1Tick info)).1.showVisualizer = !t.showVisualizer ∧
    (tick t (heldF1Tick info)).1.gameState = GameState.Game ∧
    (tick t (heldF1Tick info)).1.prevKeys = [KeyCode.F1] ∧
    (tick t (heldF1Tick info)).2.panicMsg = none := by
  have hreq : (heldF1Tick info).requestGameState = none := rfl
  have hgm : (applyStateTransition t (heldF1Tick info).requestGameState).gameState
      = GameState.Game := by
    rw [hreq, applyStateTransition_gameState_none, hg]
  refine ⟨?_, ?_, ?_, ?_⟩
  · rw [tick_showVisualizer, if_pos ⟨hgm, List.mem_singleton.mpr rfl, hp⟩]
  · rw [tick_gameState]; exact hgm
  · rw [tick_prevKeys]; rfl
  · exact tick_no_panic_of_disconnected t _ rfl

theorem tick_heldF1_held (t : AppState) (info : NetworkInfo)
    (hg : t.gameState = GameState.Game) (hp : KeyCode.F1 ∈ t.prevKeys) :
    (tick t (heldF1Tick info)).1.showVisualizer = t.showVisualizer ∧
    (tick t (heldF1Tick info)).1.gameState = GameState.Game ∧
    (tick t (heldF1Tick info)).1.prevKeys = [KeyCode.F1] ∧
    (tick t (heldF1Tick info)).2.panicMsg = none := by
  have hreq : (heldF1Tick info).requestGameState = none := rfl
  have hgm : (applyStateTransition t (heldF1Tick info).requestGameState).gameState
      = GameState.Game := by
    rw [hreq, applyStateTransition_gameState_none, hg]
  refine ⟨?_, ?_, ?_, ?_⟩
  · rw [tick_showVisualizer, if_neg (fun hc => hc.2.2 hp)]
  · rw [tick_gameState]; exact hgm
  · rw [tick_prevKeys]; rfl
  · exact tick_no_panic_of_disconnected t _ rfl

theorem tick_releasedF1 (t : AppState) (info : NetworkInfo)
    (hg : t.gameState = GameState.Game) :
    (tick t (releasedF1Tick info)).1.showVisualizer = t.showVisualizer ∧
    (tick t (releasedF1Tick info)).1.gameState = GameState.Game ∧
    (tick t (releasedF1Tick info)).1.prevKeys = [] ∧
    (tick t (releasedF1Tick info)).2.panicMsg = none := by
  have hreq : (releasedF1Tick info).requestGameState = none := rfl
  have hgm : (applyStateTransition t (releasedF1Tick info).requestGameState).gameState
      = GameState.Game := by
    rw [hreq, applyStateTransition_gameState_none, hg]
  refine ⟨?_, ?_, ?_, ?_⟩
  · rw [tick_showVisualizer, if_neg (fun hc => List.not_mem_nil KeyCode.F1 hc.2.1)]
  · rw [tick_gameState]; exact hgm
  · rw [tick_prevKeys]; rfl
  · exact tick_no_panic_of_disconnected t _ rfl

theorem run_heldF1 (info : NetworkInfo) (k : Nat) :
    ∀ t : AppState, t.gameState = GameState.Game → KeyCode.F1 ∈ t.prevKeys →
      (run t (List.replicate k (heldF1Tick info))).1.showVisualizer
        = t.showVisualizer ∧
      (run t (List.replicate k (heldF1Tick info))).1.gameState = GameState.Game ∧
      KeyCode.F1 ∈ (run t (List.replicate k (heldF1Tick info))).1.prevKeys := by
  induction k with
  | zero => intro t h1 h2; exact ⟨rfl, h1, h2⟩
  | succ n ih =>
    intro t h1 h2
    have ht := tick_heldF1_held t info h1 h2
    rw [List.replicate_succ, run_cons_ok _ _ _ ht.2.2.2]
    obtain ⟨i1, i2, i3⟩ := ih (tick t (heldF1Tick info)).1 ht.2.1
      (by rw [ht.2.2.1]; exact List.mem_singleton.mpr rfl)
    exact ⟨i1.trans ht.1, i2, i3⟩

/-- Claim C8: a single press of `F1` flips the display flag exactly once
even if the key is held down across `k + 1` ticks without release;
releasing and pressing again flips it back; and on any in-game tick the
overlay window is drawn exactly when the display flag is set at the end
of that tick. -/
theorem C8_toggle_once_per_press (s : AppState) (info1 info2 info3 : NetworkInfo)
    (k : Nat) (hg : s.gameState = GameState.Game)
    (hp : KeyCode.F1 ∉ s.prevKeys) :
    (run s (List.replicate (k + 1) (heldF1Tick info1))).1.showVisualizer
      = !s.showVisualizer ∧
    (run (run (run s (List.replicate (k + 1) (heldF1Tick info1))).1
        [releasedF1Tick info2]).1 [heldF1Tick info3]).1.showVisualizer
      = s.showVisualizer ∧
    (∀ (t : AppState) (inp : TickInput),
      (applyStateTransition t inp.requestGameState).gameState = GameState.Game →
      (tick t inp).2.overlayDrawn = (tick t inp).1.showVisualizer) := by
  have h1 := tick_heldF1_pressed s info1 hg hp
  have hmem1 : KeyCode.F1 ∈ (tick s (heldF1Tick info1)).1.prevKeys := by
    rw [h1.2.2.1]; exact List.mem_singleton.mpr rfl
  have hrun := run_heldF1 info1 k (tick s (heldF1Tick info1)).1 h1.2.1 hmem1
  have hsplit : run s (List.replicate (k + 1) (heldF1Tick info1)) =
      ((run (tick s (heldF1Tick info1)).1 (List.replicate k (heldF1Tick info1))).1,
        (tick s (heldF1Tick info1)).2 ::
          (run (tick s (heldF1Tick info1)).1 (List.replicate k (heldF1Tick info1))).2) := by
    rw [List.replicate_succ]
    exact run_cons_ok _ _ _ h1.2.2.2
  have e1 : (run s (List.replicate (k + 1) (heldF1Tick info1))).1.showVisualizer
      = !s.showVisualizer := by
    rw [hsplit]; exact hrun.1.trans h1.1
  have e1g : (run s (List.replicate (k + 1) (heldF1Tick info1))).1.gameState
      = GameState.Game := by
    rw [hsplit]; exact hrun.2.1
  have h2 := tick_releasedF1 (run s (List.replicate (k + 1) (heldF1Tick info1))).1
    info2 e1g
  have hrel : (run (run s (List.replicate (k + 1) (heldF1Tick info1))).1
      [releasedF1Tick info2]).1 =
      (tick (run s (List.replicate (k + 1) (heldF1Tick info1))).1
        (releasedF1Tick info2)).1 := by
    rw [run_cons_ok _ _ _ h2.2.2.2]
    rfl
  have e2 : (run (run s (List.replicate (k + 1) (heldF1Tick info1))).1
      [releasedF1Tick info2]).1.showVisualizer = !s.showVisualizer := by
    rw [hrel]; exact h2.1.trans e1
  have e2g : (run (run s (List.replicate (k + 1) (heldF1Tick info1))).1
      [releasedF1Tick info2]).1.gameState = GameState.Game := by
    rw [hrel]; exact h2.2.1
  have e2p : (run (run s (List.replicate (k + 1) (heldF1Tick info1))).1
      [releasedF1Tick info2]).1.prevKeys = [] := by
    rw [hrel]; exact h2.2.2.1
  have h3 := tick_heldF1_pressed (run (run s (List.replicate (k + 1)
      (heldF1Tick info1))).1 [releasedF1Tick info2]).1 info3 e2g
    (by rw [e2p]; exact List.not_mem_nil KeyCode.F1)
  refine ⟨e1, ?_, ?_⟩
  · rw [run_cons_ok _ _ _ h3.2.2.2]
    have hfin := h3.1
    rw [e2] at hfin
    exact hfin.trans (Bool.not_not s.showVisualizer)
  · intro t inp hg'
    rw [tick_overlayDrawn]
    simp [hg']

/-- Witness for C8: in the in-game world, holding `F1` for two
consecutive ticks turns the flag on exactly once; releasing and pressing
again turns it back off. -/
theorem C8_toggle_once_per_press_witness :
    (run inGameState (List.replicate (1 + 1) (heldF1Tick 1))).1.showVisualizer
      = true ∧
    (run (run (run inGameState (List.replicate (1 + 1) (heldF1Tick 1))).1
        [releasedF1Tick 2]).1 [heldF1Tick 3]).1.showVisualizer = false :=
  have h := C8_toggle_once_per_press inGameState 1 2 3 1 (by decide) (by decide)
  ⟨h.1.trans (by decide), h.2.1.trans (by decide)⟩

/-! ## Claim C9 -/

/-- Claim C9: on every run from the plugin's initial world the play state
is only ever `Disabled` or `Main` — so the representable `State` variant
is never entered — and the only pending play-state transition ever
requested is the bootstrap's `Disabled` to `Main`. -/
theorem C9_state_variant_never_entered (addr : ConnectionAddr)
    (inputs : List TickInput) :
    ((run (GamePlugin.build addr) inputs).1.playState = PlayState.Disabled ∨
      (run (GamePlugin.build addr) inputs).1.playState = PlayState.Main) ∧
    ((run (GamePlugin.build addr) inputs).1.nextPlayState = none ∨
      (run (GamePlugin.build addr) inputs).1.nextPlayState = some PlayState.Main) := by
  have h := run_inv inputs (GamePlugin.build addr) (build_inv addr)
  exact ⟨h.2.1, h.1⟩

/-! ## Claim C10 -/

theorem tick_noF1 (s : AppState) (inp : TickInput)
    (hshow : s.showVisualizer = false) (hf1 : KeyCode.F1 ∉ inp.keysPressed) :
    (tick s inp).1.showVisualizer = false ∧ (tick s inp).2.overlayDrawn = false := by
  have hs : (tick s inp).1.showVisualizer = false := by
    rw [tick_showVisualizer, if_neg (fun hc => hf1 hc.2.1)]
    exact hshow
  exact ⟨hs, by rw [tick_overlayDrawn, hs]; simp⟩

theorem run_noF1 (inputs : List TickInput) :
    ∀ s : AppState, s.showVisualizer = false →
      (∀ i ∈ inputs, KeyCode.F1 ∉ i.keysPressed) →
      (run s inputs).1.showVisualizer = false ∧
      (∀ tr ∈ (run s inputs).2, tr.overlayDrawn = false) := by
  induction inputs with
  | nil =>
    intro s h _
    exact ⟨h, fun tr htr => absurd htr (List.not_mem_nil tr)⟩
  | cons inp rest ih =>
    intro s hshow hno
    have hf1 : KeyCode.F1 ∉ inp.keysPressed := hno inp (List.mem_cons_self inp rest)
    have ht := tick_noF1 s inp hshow hf1
    cases hp : (tick s inp).2.panicMsg with
    | some m =>
      rw [run_cons_panic s inp rest m hp]
      refine ⟨ht.1, fun tr htr => ?_⟩
      rw [List.mem_singleton.mp htr]
      exact ht.2
    | none =>
      rw [run_cons_ok s inp rest hp]
      obtain ⟨i1, i2⟩ := ih (tick s inp).1 ht.1
        (fun i hi => hno i (List.mem_cons_of_mem inp hi))
      refine ⟨i1, fun tr htr => ?_⟩
      rcases List.mem_cons.mp htr with h | h
      · rw [h]; exact ht.2
      · exact i2 tr h

/-- Claim C10: the display flag (`Local<bool>`) starts `false`, so on any
run in which `F1` is never pressed the overlay window is never drawn and
the flag stays `false`; and the toggle key is specifically `F1` — on an
in-game tick where `F1` is newly pressed the flag flips. -/
theorem C10_overlay_off_before_first_F1 (addr : ConnectionAddr)
    (inputs : List TickInput)
    (h : ∀ i ∈ inputs, KeyCode.F1 ∉ i.keysPressed) :
    (GamePlugin.build addr).showVisualizer = false ∧
    (run (GamePlugin.build addr) inputs).1.showVisualizer = false ∧
    (∀ tr ∈ (run (GamePlugin.build addr) inputs).2, tr.overlayDrawn = false) ∧
    (∀ (t : AppState) (inp : TickInput),
      (applyStateTransition t inp.requestGameState).gameState = GameState.Game →
      KeyCode.F1 ∈ inp.keysPressed → KeyCode.F1 ∉ t.prevKeys →
      (tick t inp).1.showVisualizer = !t.showVisualizer) := by
  obtain ⟨r1, r2⟩ := run_noF1 inputs (GamePlugin.build addr) rfl h
  refine ⟨rfl, r1, r2, ?_⟩
  intro t inp hg hin hout
  rw [tick_showVisualizer, if_pos ⟨hg, hin, hout⟩]

/-- Witness for C10: entering the game and then pressing only `F2` never
draws the overlay and leaves the flag off. -/
theorem C10_overlay_off_before_first_F1_witness :
    (run (GamePlugin.build "example:7777")
        [enterGameTick, pressF2Tick]).1.showVisualizer = false ∧
    (∀ tr ∈ (run (GamePlugin.build "example:7777") [enterGameTick, pressF2Tick]).2,
      tr.overlayDrawn = false) :=
  have h := C10_overlay_off_before_first_F1 "example:7777"
    [enterGameTick, pressF2Tick] (by decide)
  ⟨h.2.1, h.2.2.1⟩

end ChatFeat
